import Mathlib

/-!
Shallow embedding of `src/Client.js` (web-socket-router): the ConnectionHandler
lifecycle (connect / reconnect / flush / send / close) and the Router dispatch
engine (routify, applyFilters, shouldEventExecute, shouldTaskExecute,
applyToQueue, dispatch, runner, executeTaks, send), together with theorems
checking the specification's claims against these definitions.

Conventions:
* JS strings are Lean `String`s; candidate strings are matched as `List Char`.
* Thrown JS exceptions are explicit error values (`DErr`, `JsError`).
* Route strings containing JS-regex metacharacters other than `*`, `.` and `/`
  are outside the model: `routify` returns `none` for them and every theorem
  about pattern matching carries the corresponding safety hypothesis.
-/

namespace WSRouter

/-- A token of the regular expression produced by `Router.prototype.routify`:
a literal character, the unescaped `.` (JS regex any-character), or the class
`[^/]+` that each `*` of the route is replaced with. -/
inductive RTok where
  | lit : Char → RTok
  | dot : RTok
  | star : RTok
deriving DecidableEq

/-- JS regex `.` does not match line terminators. -/
def isLineTerm (c : Char) : Bool :=
  c == '\n' || c == '\r'

/-- Full-string matching of a token list against a candidate, mirroring the
anchored (`^...$`) regex built by `routify`: `lit c` matches exactly `c`,
`dot` matches any single non-line-terminator character, and `star` (the class
`[^/]+`) matches one or more characters none of which is `'/'`. -/
def rmatch : List RTok → List Char → Bool
  | [], cs => cs.isEmpty
  | _ :: _, [] => false
  | RTok.lit a :: ts, c :: cs => a == c && rmatch ts cs
  | RTok.dot :: ts, c :: cs => !(isLineTerm c) && rmatch ts cs
  | RTok.star :: ts, c :: cs =>
      (c != '/') && (rmatch ts cs || rmatch (RTok.star :: ts) cs)

/-- Characters that carry a JS-regex meaning which `routify` does not escape
and which this model does not interpret; a route (or filter/data string)
containing one of them is outside the model. `*`, `.` and `/` are handled
precisely, everything else is a plain literal in JS regex syntax. -/
def jsMetaUnsupported (c : Char) : Bool :=
  c == '+' || c == '?' || c == '^' || c == '$' || c == '(' || c == ')' ||
  c == '[' || c == ']' || c == '{' || c == '}' || c == '|' || c == '\\'

/-- Models `Router.prototype.routify`: builds
`new RegExp('^' + n.replace(/\*[/]g, klass).replace(slash, escaped) + '$')`,
i.e. every `*` becomes the class `[^/]+`, every `/` is escaped (hence a
literal), and every other character is inserted verbatim into the regex — so
`.` keeps its regex any-character meaning while metacharacter-free characters
are literals. Routes using other regex metacharacters are unmodelled (`none`). -/
def routify (n : String) : Option (List RTok) :=
  if n.data.any jsMetaUnsupported then none
  else some (n.data.map fun c =>
    if c == '*' then RTok.star
    else if c == '.' then RTok.dot
    else RTok.lit c)

/-- The pattern compiler described by the specification's words: each `*` of
the route matches exactly one path segment (one or more non-`/` characters)
and **every** other character of the route is matched literally. Used only to
compare the spec's description against `routify`. -/
def specCompile (n : String) : List RTok :=
  n.data.map fun c => if c == '*' then RTok.star else RTok.lit c

example : rmatch (specCompile "/users/*") "/users/42".data = true := by decide
example : rmatch (specCompile "/users/*") "/users/42/x".data = false := by decide
example : rmatch (specCompile "/users/*") "/users".data = false := by decide
example : routify "." = some [RTok.dot] := by decide
example : rmatch [RTok.dot] "x".data = true := by decide

/-- A message `{ route, action, data }`. `action` is `none` when the property
is absent (JS `undefined`); `data` is `none` when absent or falsy, and is
modelled as an association list of already-stringified field values (the
source always calls `.toString()` on the values it inspects). -/
structure Msg where
  route : String
  action : Option String := none
  data : Option (List (String × String)) := none
deriving DecidableEq

/-- JS coerces the argument of `RegExp.exec` to a string, so an absent
`action` is matched as the string `"undefined"`. -/
def actionCandidate (m : Msg) : String :=
  m.action.getD "undefined"

/-- Errors thrown (or left unmodelled) while evaluating routing predicates. -/
inductive DErr where
  | typeError
  | unmodeledPattern
deriving DecidableEq

/-! ## ConnectionHandler -/

/-- The state of a `ConnectionHandler`. `messageQueue` and `connectionsAttemp`
are the source's fields; `wsReadyState` mirrors `this.connection.readyState`
on the underlying WebSocket; `wsCloseCalled` records whether
`WebSocket.close()` was ever invoked; `chOnopenSet` records that an `onopen`
property was assigned directly on the ConnectionHandler object (as
`Router.prototype.close` does — nothing ever invokes that property);
`connectCalls` is a history variable counting invocations of `connect`,
added for the retry-ceiling claim and not a field of the source object. -/
structure ConnState where
  messageQueue : List Msg := []
  connectionsAttemp : Nat := 0
  wsReadyState : Nat := 0
  wsCloseCalled : Bool := false
  chOnopenSet : Bool := false
  connectCalls : Nat := 0
deriving DecidableEq

/-- Models `ConnectionHandler.prototype.connect`: increments `connectionsAttemp` and
opens a fresh transport (the installation of the `onopen`/`onclose`/
`onmessage` reactions carries no state of its own here). -/
def connect (s : ConnState) : ConnState :=
  { s with connectionsAttemp := s.connectionsAttemp + 1,
           connectCalls := s.connectCalls + 1 }

/-- The constructor: fields initialised (`messageQueue = []`,
`connectionsAttemp = 0`) and `connect` called immediately. -/
def chInit : ConnState := connect {}

/-- Models `ConnectionHandler.prototype.reconnect`, run on every transport close:
if `connectionsAttemp < 10`, `connect` is scheduled via `setTimeout` after a
1000 ms delay — returned as `some (delay, state after the timer fires)`;
otherwise only a diagnostic is logged and nothing is scheduled (`none`). -/
def reconnect (s : ConnState) : Option (Nat × ConnState) :=
  if s.connectionsAttemp < 10 then some (1000, connect s) else none

/-- The state reached after `k` failed cycles: the constructor's `connect`,
then `k` times (transport closes before opening → `reconnect` fires →
scheduled `connect` runs). `none` once `reconnect` declines to schedule. -/
def failTrace : Nat → Option ConnState
  | 0 => some chInit
  | k + 1 => (failTrace k).bind fun s => (reconnect s).map Prod.snd

/-- Models `ConnectionHandler.prototype.send`: `connection.send(JSON.stringify m)`
inside `try`; on a throw the message is pushed onto `messageQueue`. Whether
the transport send succeeds is supplied by the oracle `ok`. Returns the
messages delivered to the transport and the new queue. -/
def chSend (ok : Msg → Bool) (q : List Msg) (m : Msg) : List Msg × List Msg :=
  if ok m then ([m], q) else ([], q ++ [m])

/-- The `for..of` loop of `ConnectionHandler.prototype.flush`, desugared: the
array iterator re-reads `length` on every step, so a message re-enqueued by a
failing `send` is appended to the very array being iterated and is visited
again. `fuel` bounds the number of loop steps; `none` means the loop did not
terminate within `fuel` steps. Returns `(messages delivered in order, final
array)` on termination. -/
def flushAux (ok : Msg → Bool) : Nat → List Msg → Nat → List Msg →
    Option (List Msg × List Msg)
  | 0, _, _, _ => none
  | fuel + 1, arr, i, sent =>
    if h : i < arr.length then
      let m := arr.get ⟨i, h⟩
      if ok m then flushAux ok fuel arr (i + 1) (sent ++ [m])
      else flushAux ok fuel (arr ++ [m]) (i + 1) sent
    else some (sent, arr)

/-- Models `ConnectionHandler.prototype.flush`: sets `connectionsAttemp := 0`, runs
the loop over the live queue array, then replaces `messageQueue` with `[]`.
`none` when the loop does not terminate within `fuel` steps. -/
def flushCH (ok : Msg → Bool) (fuel : Nat) (s : ConnState) :
    Option (ConnState × List Msg) :=
  (flushAux ok fuel s.messageQueue 0 []).map fun p =>
    ({ s with connectionsAttemp := 0, messageQueue := [] }, p.1)

/-! ## Router: events, filters, dispatch -/

/-- Models `evt.fn`: `applyToQueue` distinguishes a single function from an array of
functions. Handlers are identified by numeric ids. -/
inductive HFn where
  | single : Nat → HFn
  | group : List Nat → HFn
deriving DecidableEq

/-- A registered event, as the source stores it: `n` is the route already
compiled by `routify` at registration, `action` is `some "*"` by default for
`on` but **absent** for `intercept` (`none` = JS `undefined`), `filters` and
`bind` are set by the builder when used (contexts are numeric ids). -/
structure REvent where
  n : Option (List RTok)
  fn : HFn
  action : Option String := some "*"
  filters : Option (List (String × String)) := none
  bind : Option Nat := none
deriving DecidableEq

/-- The loop body of `Router.prototype.applyFilters`: for each key of the
event's filters, in order, the source evaluates
`routify(dataFilters[key].toString()).exec(eventFilters[key].toString())` —
the **message's data value** is compiled as the pattern and the **filter's
value** is the candidate. A key absent from the data makes
`dataFilters[key]` undefined, so `.toString()` throws a TypeError. The sticky
flag `acc` never short-circuits the iteration. -/
def applyFiltersAux (dataFilters : List (String × String)) :
    List (String × String) → Bool → Except DErr Bool
  | [], acc => .ok acc
  | (k, fv) :: rest, acc =>
    match dataFilters.lookup k with
    | none => .error .typeError
    | some dv =>
      match routify dv with
      | none => .error .unmodeledPattern
      | some p => applyFiltersAux dataFilters rest (acc && rmatch p fv.data)

/-- Models `Router.prototype.applyFilters`. -/
def applyFilters (dataFilters eventFilters : List (String × String)) :
    Except DErr Bool :=
  applyFiltersAux dataFilters eventFilters true

/-- Filter satisfaction as the specification words it: a filter
`{key: pattern}` is satisfied when the message's `data[key]`, stringified,
matches the compiled pattern of the filter's value; a missing data key is a
non-match, never an error. Used only to compare the spec against
`applyFilters`. -/
def specFilterSat (dataFilters eventFilters : List (String × String)) : Bool :=
  eventFilters.all fun kv =>
    match dataFilters.lookup kv.1 with
    | none => false
    | some dv => rmatch (specCompile kv.2) dv.data

/-- Models `Router.prototype.shouldEventExecute`:
`if (!routify(evt.action).exec(data.action)) return false;` — when
`evt.action` is absent (an `intercept` event) `routify(undefined)` throws a
TypeError (`undefined.replace`); then
`if ((evt.filters && !data.data) || (data.data && evt.filters &&
!applyFilters(data.data, evt.filters))) return false;` and finally
`return evt.n.exec(data.route)`. -/
def shouldEventExecute (data : Msg) (evt : REvent) : Except DErr Bool :=
  match evt.action with
  | none => .error .typeError
  | some a =>
    match routify a with
    | none => .error .unmodeledPattern
    | some pa =>
      if !rmatch pa (actionCandidate data).data then .ok false
      else
        match evt.filters, data.data with
        | some _, none => .ok false
        | some fs, some d =>
          match applyFilters d fs with
          | .error e => .error e
          | .ok false => .ok false
          | .ok true =>
            match evt.n with
            | none => .error .unmodeledPattern
            | some pn => .ok (rmatch pn data.route.data)
        | none, _ =>
          match evt.n with
          | none => .error .unmodeledPattern
          | some pn => .ok (rmatch pn data.route.data)

/-- Models `Router.prototype.applyToQueue`: pushes the event's handler(s), bound to
`evt.bind` when present and otherwise to the router's default context, onto
the run list. Entries are `(handler id, context id)`. -/
def applyToQueue (ctx : Nat) (evt : REvent) (run : List (Nat × Nat)) :
    List (Nat × Nat) :=
  let c := evt.bind.getD ctx
  match evt.fn with
  | .single h => run ++ [(h, c)]
  | .group hs => run ++ hs.map fun h => (h, c)

/-- One scan loop of `Router.prototype.dispatch` over an event collection:
events are tested in order with `shouldEventExecute` and matching ones are
appended to the run list by `applyToQueue`. A thrown predicate aborts the
whole dispatch. -/
def buildRun (ctx : Nat) (data : Msg) :
    List REvent → List (Nat × Nat) → Except DErr (List (Nat × Nat))
  | [], acc => .ok acc
  | e :: es, acc =>
    match shouldEventExecute data e with
    | .error err => .error err
    | .ok true => buildRun ctx data es (applyToQueue ctx e acc)
    | .ok false => buildRun ctx data es acc

/-- Models `Router.prototype.runner`'s loop behaviour under the handler-behaviour
oracle `thr` (`some trace` = this handler throws, with `trace` standing for
`error.stack`): handlers are invoked strictly in order; the first throw stops
the loop. Returns the invoked handlers (the thrower included) and the trace
of the first failure, if any. -/
def runner (thr : Nat → Option String) :
    List (Nat × Nat) → List Nat × Option String
  | [] => ([], none)
  | (h, _) :: rest =>
    match thr h with
    | some tr => ([h], some tr)
    | none =>
      let p := runner thr rest
      (h :: p.1, p.2)

/-- Models `Router.prototype.ExceptionHandler`: `{ message: error.stack }`. -/
def ExceptionHandler (stack : String) : List (String × String) :=
  [("message", stack)]

/-- The message `Router.prototype.error` passes to `this.send`:
`{ route: '/socket/error', data: error }` (no `action` property). -/
def socketErrorMsg (stack : String) : Msg :=
  { route := "/socket/error", action := none, data := some (ExceptionHandler stack) }

/-- A send-hook task as `registerSendTask` stores it: the compiled route, the
handler id, and the position constant. -/
structure Task where
  route : Option (List RTok)
  fn : Nat
  position : String
deriving DecidableEq

/-- The source's `BEFORE` constant. -/
def BEFORE : String := "BEFORE"

/-- The source's `AFTER` constant — the string literally is `'AFTER;'`
(trailing semicolon inside the quotes); both registration and execution use
the same constant, so the typo is unobservable. -/
def AFTER : String := "AFTER;"

/-- The mutable state a `Router` instance owns: the two event collections,
the send tasks, the `ConnectionHandler`, and `routerMessageQueue` — the
`messageQueue` property that `Router.prototype.close` creates **on the
Router itself** (absent until `close` is called; distinct from
`conn.messageQueue`). -/
structure RouterState where
  events : List REvent := []
  lastEvents : List REvent := []
  registeredTasks : List Task := []
  conn : ConnState := chInit
  routerMessageQueue : Option (List Msg) := none
deriving DecidableEq

/-- Models `Router.prototype.on`: compiles the route and pushes
`{ n, fn, action: "*" }` onto the regular collection. (The returned builder's
`action`/`filters`/`bind` setters mutate this last event; theorems construct
events directly where those are needed.) -/
def routerOn (r : RouterState) (n : String) (fn : HFn) : RouterState :=
  { r with events := r.events ++ [{ n := routify n, fn := fn, action := some "*" }] }

/-- Models `Router.prototype.intercept`: pushes `{ n, fn }` — note that unlike `on`
it stores **no** `action` property. -/
def intercept (r : RouterState) (n : String) (fn : HFn) : RouterState :=
  { r with events := r.events ++ [{ n := routify n, fn := fn, action := none }] }

/-- JS exception kinds relevant to the builder returned by `on`. -/
inductive JsError where
  | referenceError
  | typeError
deriving DecidableEq

/-- The builder's `executeLast`:
`lastEvents.push(events[events.indexOf(event)]); delete events[...]; ...` —
the identifiers `events` and `lastEvents` are not in scope anywhere in the
source (the fields are `this.events` / `this.lastEvents`), and the file runs
under `'use strict'`, so resolving `lastEvents` throws a ReferenceError
before any state is touched. -/
def executeLast (_ : RouterState) : Except JsError RouterState :=
  .error .referenceError

/-- Models `Router.prototype.dispatch` followed by `runner`: scans the regular
collection fully, then the deferred collection, then runs the accumulated
run list; a runner failure is converted by `ExceptionHandler` into one
message passed to `Router.send` on `/socket/error`. Returns the invoked
handler ids and the error messages so sent. -/
def dispatch (ctx : Nat) (thr : Nat → Option String) (r : RouterState)
    (data : Msg) : Except DErr (List Nat × List Msg) :=
  match buildRun ctx data r.events [] with
  | .error e => .error e
  | .ok run1 =>
    match buildRun ctx data r.lastEvents run1 with
    | .error e => .error e
    | .ok run =>
      let p := runner thr run
      .ok (p.1, match p.2 with
        | some tr => [socketErrorMsg tr]
        | none => [])

/-- Models `Router.prototype.shouldTaskExecute`: `position != task.position` first
(no pattern is touched on a mismatch), then `task.route.exec(data.route)`.
`none` only when the task's route pattern is outside the model. -/
def shouldTaskExecute (data : Msg) (t : Task) (position : String) :
    Option Bool :=
  if position ≠ t.position then some false
  else t.route.map fun p => rmatch p data.route.data

/-- Models `Router.prototype.executeTaks`: iterates `registeredTasks` in order,
running each task whose `shouldTaskExecute` holds, bound to the default
context. A task that throws (oracle `tb`, `some trace`) aborts the loop and
the throw propagates to `Router.send`'s catch: the result is the list of
invoked task handlers (the thrower included) and the escaped trace, if any. -/
def executeTaks (tb : Nat → Option String) (data : Msg) (position : String) :
    List Task → List Nat → Except DErr (List Nat × Option String)
  | [], acc => .ok (acc, none)
  | t :: ts, acc =>
    match shouldTaskExecute data t position with
    | none => .error .unmodeledPattern
    | some false => executeTaks tb data position ts acc
    | some true =>
      match tb t.fn with
      | some e => .ok (acc ++ [t.fn], some e)
      | none => executeTaks tb data position ts (acc ++ [t.fn])

/-- The handlers of the tasks of a list that match `data` at `position`, in
registration order (`none` when an examined route pattern is unmodelled).
Specification-side helper for stating `executeTaks` results. -/
def matchingFns (data : Msg) (position : String) :
    List Task → Option (List Nat)
  | [] => some []
  | t :: ts =>
    match shouldTaskExecute data t position with
    | none => none
    | some true => (matchingFns data position ts).map (t.fn :: ·)
    | some false => matchingFns data position ts

/-- The observable outcome of one `Router.prototype.send`. -/
structure SendOutcome where
  beforeRun : List Nat
  transportAttempted : Bool
  delivered : Bool
  afterRun : List Nat
  caught : Option String
deriving DecidableEq

/-- Models `Router.prototype.send`: one `try` wraps
`executeTaks(message, BEFORE); connection.send(message);
executeTaks(message, AFTER)`; any throw lands in the `catch`, is logged and
never re-raised (`caught`). A BEFORE throw aborts before the transport send;
`ConnectionHandler.send` itself never throws (a transport failure enqueues
the message), so AFTER tasks run even when delivery failed; an AFTER throw
leaves the already-performed send standing. -/
def routerSend (tb : Nat → Option String) (ok : Msg → Bool) (r : RouterState)
    (message : Msg) : Except DErr (RouterState × SendOutcome) :=
  match executeTaks tb message BEFORE r.registeredTasks [] with
  | .error e => .error e
  | .ok (bs, some tr) =>
    .ok (r, { beforeRun := bs, transportAttempted := false, delivered := false,
              afterRun := [], caught := some tr })
  | .ok (bs, none) =>
    let sres := chSend ok r.conn.messageQueue message
    let r' := { r with conn := { r.conn with messageQueue := sres.2 } }
    match executeTaks tb message AFTER r.registeredTasks [] with
    | .error e => .error e
    | .ok (as_, some tr) =>
      .ok (r', { beforeRun := bs, transportAttempted := true,
                 delivered := ok message, afterRun := as_, caught := some tr })
    | .ok (as_, none) =>
      .ok (r', { beforeRun := bs, transportAttempted := true,
                 delivered := ok message, afterRun := as_, caught := none })

/-- Models `this.connection.readyState` as evaluated inside `Router.prototype.close`:
there `this` is the Router, so `this.connection` is the **ConnectionHandler**
object, which has no `readyState` property — the read yields `undefined`. -/
def connectionHandlerReadyState (_ : ConnState) : Option Nat := none

/-- Models `Router.prototype.close`: assigns `this.messageQueue = []` (creating a
fresh property on the Router — `conn.messageQueue` is untouched); then
`this.connection.readyState == 1` compares `undefined == 1`, which is false,
so the else branch always runs and assigns an `onopen` property on the
ConnectionHandler object — a property nothing ever invokes (the WebSocket's
`onopen` is a different object's property). The transport is never closed. -/
def routerClose (r : RouterState) : RouterState :=
  let r1 := { r with routerMessageQueue := some [] }
  match connectionHandlerReadyState r1.conn with
  | some 1 => { r1 with conn := { r1.conn with wsCloseCalled := true } }
  | _ => { r1 with conn := { r1.conn with chOnopenSet := true } }

/-! ## Concrete scenarios used by the theorems -/

/-- The router of the deferred-ordering scenario: events A (handler 1),
B (handler 2), C (handler 3), all on route `/r`, registered in that order. -/
def abcRouter : RouterState :=
  routerOn (routerOn (routerOn {} "/r" (.single 1)) "/r" (.single 2)) "/r" (.single 3)

/-- A message matching all three events of `abcRouter`. -/
def msgABC : Msg := { route := "/r", action := some "UPDATE" }

/-- A router with one `intercept`-registered handler on `/a`. -/
def interceptRouter : RouterState := intercept {} "/a" (.single 1)

/-- An inbound message whose route matches the intercepted route. -/
def msgIntercept : Msg := { route := "/a", action := some "CREATE" }

/-- A queued message for the flush scenarios. -/
def msgQ : Msg := { route := "/m" }

/-- A router whose transport is open (`readyState = 1` on the WebSocket) and
whose ConnectionHandler holds one queued message. -/
def openRouter : RouterState :=
  { conn := { messageQueue := [msgQ], wsReadyState := 1 } }

/-! ## Claim theorems -/

/-- C2 — Retry ceiling: with a transport that closes before opening on every
attempt, the state after the 9th reconnect cycle has seen exactly 10
`connect` calls with `connectionsAttemp = 10`; no state beyond that exists
(no 11th `connect`); `reconnect` schedules nothing once `connectionsAttemp`
has reached 10; and every scheduled reconnect uses the 1000 ms delay. -/
theorem C2_retry_ceiling :
    ((failTrace 9).map fun s => (s.connectCalls, s.connectionsAttemp)) = some (10, 10)
    ∧ (∀ k, 10 ≤ k → failTrace k = none)
    ∧ (∀ s : ConnState, 10 ≤ s.connectionsAttemp → reconnect s = none)
    ∧ (∀ (s s' : ConnState) (d : Nat), reconnect s = some (d, s') → d = 1000) := by
  refine ⟨by decide, ?_, ?_, ?_⟩
  · intro k hk
    induction k, hk using Nat.le_induction with
    | base => decide
    | succ n _ ih => rw [failTrace, ih]; rfl
  · intro s hs
    rw [reconnect, if_neg (by omega)]
  · intro s s' d h
    rw [reconnect] at h
    split at h
    · exact (Prod.mk.injEq .. ▸ Option.some.injEq .. ▸ h).1.symm ▸ rfl
    · exact absurd h (by simp)

/-- Closed instance of the retry ceiling: the 10th close schedules nothing
and the trace ends. -/
theorem C2_retry_ceiling_witness :
    failTrace 10 = none ∧ reconnect { connectionsAttemp := 10 } = none :=
  ⟨C2_retry_ceiling.2.1 10 (by omega),
   C2_retry_ceiling.2.2.1 { connectionsAttemp := 10 } (by decide)⟩

/-- C6 (counterexample) — `routify` does not escape regex metacharacters:
the route `"."` compiles to the regex any-character token, so its matcher
accepts `"x"`, while the spec's literal matcher for `"."` rejects `"x"`. -/
theorem C6_counterexample :
    ((routify ".").map fun p => rmatch p "x".data) = some true
    ∧ rmatch (specCompile ".") "x".data = false := by decide

/-- C6 (amended) — for every route string free of regex metacharacters
(no unsupported metacharacter and no `.`), `routify` produces exactly the
spec's anchored matcher: each `*` matches one or more non-`/` characters and
every other character is literal; and the `/users/*` examples hold. -/
theorem C6_routify_metafree_literal (n : String)
    (h : ∀ c ∈ n.data, jsMetaUnsupported c = false ∧ c ≠ '.') :
    routify n = some (specCompile n)
    ∧ ((routify "/users/*").map fun p =>
        (rmatch p "/users/42".data, rmatch p "/users/42/x".data,
         rmatch p "/users".data)) = some (true, false, false) := by
  constructor
  · rw [routify, if_neg]
    · rw [specCompile, Option.some.injEq]
      refine List.map_congr_left fun c hc => ?_
      rcases h c hc with ⟨-, h2⟩
      by_cases hstar : c = '*'
      · simp [hstar]
      · simp [hstar, h2]
    · simp only [List.any_eq_true, not_exists, not_and]
      intro c hc
      simp [(h c hc).1]
  · decide

/-- Closed instance of the amended C6: `"/users/*"` itself is metacharacter
free, so its compiled matcher is the spec's literal/segment matcher. -/
theorem C6_witness :
    routify "/users/*" = some (specCompile "/users/*") :=
  (C6_routify_metafree_literal "/users/*" (by decide)).1

/-- C8 — Intercept gating: an event registered by `intercept` has no
`action` property, so `shouldEventExecute` throws a TypeError
(`routify(undefined)`) instead of selecting by route, and the whole dispatch
of a route-matching message errors rather than running the handler. -/
theorem C8_intercept_typeError :
    shouldEventExecute msgIntercept
      { n := routify "/a", fn := .single 1, action := none } = .error .typeError
    ∧ dispatch 0 (fun _ => none) interceptRouter msgIntercept =
        .error DErr.typeError :=
  ⟨rfl, rfl⟩

/-- C4 — Deferred ordering: invoking the builder's `executeLast` throws a
ReferenceError (the source references the unbound identifiers
`events`/`lastEvents` under strict mode) and moves nothing, so after
registering A, B, C a matching message runs the handlers in registration
order 1, 2, 3 — never the claimed 1, 3, 2. -/
theorem C4_executeLast_referenceError :
    executeLast abcRouter = Except.error JsError.referenceError
    ∧ abcRouter.lastEvents = []
    ∧ dispatch 0 (fun _ => none) abcRouter msgABC = .ok ([1, 2, 3], []) :=
  ⟨rfl, rfl, rfl⟩

/-- C9 — Close behaviour: with the transport open and one queued message,
`close()` does not close the WebSocket (it reads `readyState` off the
ConnectionHandler wrapper, which has none), does not clear the
ConnectionHandler's queue (it creates an empty `messageQueue` on the Router
instead), and a second `close()` behaves identically without throwing. -/
theorem C9_close_is_ineffective :
    (routerClose openRouter).conn.messageQueue = [msgQ]
    ∧ (routerClose openRouter).conn.wsCloseCalled = false
    ∧ (routerClose openRouter).conn.wsReadyState = 1
    ∧ (routerClose openRouter).routerMessageQueue = some []
    ∧ (routerClose openRouter).conn.chOnopenSet = true
    ∧ routerClose (routerClose openRouter) = routerClose openRouter := by decide

/-- When every send succeeds, the flush loop visits exactly the remaining
elements of the array in order, delivers them, and leaves the array as is. -/
theorem flushAux_all_ok (ok : Msg → Bool) :
    ∀ (fuel : Nat) (arr : List Msg) (i : Nat) (sent : List Msg),
      (∀ m ∈ arr, ok m = true) → arr.length - i < fuel →
      flushAux ok fuel arr i sent = some (sent ++ arr.drop i, arr) := by
  intro fuel
  induction fuel with
  | zero => intro arr i sent _ hlt; omega
  | succ fuel ih =>
    intro arr i sent hok hlt
    rw [flushAux]
    by_cases h : i < arr.length
    · rw [dif_pos h]
      simp only [hok _ (arr.get_mem i h), if_true]
      rw [ih arr (i + 1) _ hok (by omega), ← List.getElem_cons_drop arr i h]
      simp [List.get_eq_getElem]
    · rw [dif_neg h, List.drop_eq_nil_of_le (by omega), List.append_nil]

/-- When every send fails, each visited message is appended back to the live
array and revisited: the loop never reaches the end of the array, whatever
the fuel. -/
theorem flushAux_all_fail (ok : Msg → Bool) (hok : ∀ m, ok m = false) :
    ∀ (fuel : Nat) (arr : List Msg) (i : Nat) (sent : List Msg),
      i < arr.length → flushAux ok fuel arr i sent = none := by
  intro fuel
  induction fuel with
  | zero => intro arr i sent _; rfl
  | succ fuel ih =>
    intro arr i sent h
    rw [flushAux, dif_pos h]
    simp only [hok, Bool.false_eq_true, if_false]
    exact ih _ (i + 1) sent (by simp; omega)

/-- C3 — Flush on open: when every transport send succeeds, `flush` resets
`connectionsAttemp` to 0, delivers every queued message in FIFO enqueue
order, and replaces the queue with the empty queue. But when the transport
send of the queued message fails, the failed message is re-enqueued onto the
very array the `for..of` loop is iterating and is revisited forever: the
loop never terminates under any fuel, so the queue is never cleared and the
re-enqueued message is never "discarded". -/
theorem C3_flush_fifo_and_divergence :
    (∀ (ok : Msg → Bool) (s : ConnState) (fuel : Nat),
        (∀ m ∈ s.messageQueue, ok m = true) → s.messageQueue.length < fuel →
        flushCH ok fuel s =
          some ({ s with connectionsAttemp := 0, messageQueue := [] },
                s.messageQueue))
    ∧ (∀ fuel : Nat,
        flushCH (fun _ => false) fuel { messageQueue := [msgQ] } = none) := by
  constructor
  · intro ok s fuel hok hlt
    rw [flushCH, flushAux_all_ok ok fuel s.messageQueue 0 [] hok (by omega)]
    rfl
  · intro fuel
    rw [flushCH, flushAux_all_fail _ (fun _ => rfl) fuel _ 0 [] (by decide)]
    rfl

/-- Closed instance of C3: two queued messages are delivered in order and
the queue is cleared on an all-success flush; the single-failure flush
exhausts any concrete fuel. -/
theorem C3_flush_witness :
    flushCH (fun _ => true) 3
        { messageQueue := [msgQ, msgABC], connectionsAttemp := 7 } =
      some ({ messageQueue := [], connectionsAttemp := 0 }, [msgQ, msgABC])
    ∧ flushCH (fun _ => false) 9 { messageQueue := [msgQ] } = none :=
  ⟨C3_flush_fifo_and_divergence.1 (fun _ => true)
      { messageQueue := [msgQ, msgABC], connectionsAttemp := 7 } 3
      (by decide) (by decide),
   C3_flush_fifo_and_divergence.2 9⟩

/-- A run list none of whose handlers throws is executed in full, in order,
with no failure. -/
theorem runner_no_throw (thr : Nat → Option String) :
    ∀ rl : List (Nat × Nat), (∀ p ∈ rl, thr p.1 = none) →
      runner thr rl = (rl.map Prod.fst, none) := by
  intro rl
  induction rl with
  | nil => intro _; rfl
  | cons p rest ih =>
    intro h
    rw [List.map_cons, runner, h p (List.mem_cons_self p rest),
      ih fun q hq => h q (List.mem_cons_of_mem p hq)]

/-- A run list whose first throwing handler is `h` executes exactly the
handlers before `h` and `h` itself, and surfaces `h`'s trace; everything
after `h` is skipped. -/
theorem runner_first_throw (thr : Nat → Option String) :
    ∀ (xs : List (Nat × Nat)) (h c : Nat) (ys : List (Nat × Nat)) (tr : String),
      (∀ p ∈ xs, thr p.1 = none) → thr h = some tr →
      runner thr (xs ++ (h, c) :: ys) = (xs.map Prod.fst ++ [h], some tr) := by
  intro xs
  induction xs with
  | nil => intro h c ys tr _ hh; rw [List.nil_append, runner, hh]; rfl
  | cons p rest ih =>
    intro h c ys tr hxs hh
    rw [List.cons_append, runner, hxs p (List.mem_cons_self p rest),
      ih h c ys tr (fun q hq => hxs q (List.mem_cons_of_mem p hq)) hh]
    rfl

/-- C5 — Handler failure containment: when the run list built for a dispatch
contains a first throwing handler `h`, the handlers run strictly in order up
to and including `h`, the rest of the run list is skipped, and exactly one
error message — `/socket/error` carrying the failure's trace — is handed to
`Router.send`; a dispatch of an independent message whose own run list has
no throwing handler runs it in full with no error message. -/
theorem C5_failure_containment
    (ctx : Nat) (thr : Nat → Option String) (r : RouterState) (data data2 : Msg)
    (rA rB xs ys rl2 : List (Nat × Nat)) (h c : Nat) (tr : String)
    (h1 : buildRun ctx data r.events [] = .ok rA)
    (h2 : buildRun ctx data r.lastEvents rA = .ok (xs ++ (h, c) :: ys))
    (hxs : ∀ p ∈ xs, thr p.1 = none) (hh : thr h = some tr)
    (h3 : buildRun ctx data2 r.events [] = .ok rB)
    (h4 : buildRun ctx data2 r.lastEvents rB = .ok rl2)
    (h5 : ∀ p ∈ rl2, thr p.1 = none) :
    dispatch ctx thr r data = .ok (xs.map Prod.fst ++ [h], [socketErrorMsg tr])
    ∧ dispatch ctx thr r data2 = .ok (rl2.map Prod.fst, []) := by
  constructor
  · simp only [dispatch, h1, h2, runner_first_throw thr xs h c ys tr hxs hh]
  · simp only [dispatch, h3, h4, runner_no_throw thr rl2 h5]

/-- The concrete failure-containment scenario: handlers 1, 2, 3 on `/r`
(handler 2 throws `"boom"`), handlers 4, 5 on `/s`. -/
def failRouter : RouterState :=
  routerOn (routerOn abcRouter "/s" (.single 4)) "/s" (.single 5)

/-- The throw oracle of the concrete C5 scenario: handler 2 throws. -/
def thrBoom : Nat → Option String :=
  fun n => if n = 2 then some "boom" else none

/-- Closed instance of C5: dispatching `/r` runs handlers 1 then 2, skips 3,
and emits exactly one `/socket/error` message carrying `"boom"`; the
subsequent dispatch of `/s` runs 4 and 5 with no error message. -/
theorem C5_failure_containment_witness :
    dispatch 0 thrBoom failRouter msgABC = .ok ([1, 2], [socketErrorMsg "boom"])
    ∧ dispatch 0 thrBoom failRouter { route := "/s" } = .ok ([4, 5], []) :=
  C5_failure_containment 0 thrBoom failRouter msgABC { route := "/s" }
    [(1, 0), (2, 0), (3, 0)] [(4, 0), (5, 0)] [(1, 0)] [(3, 0)] [(4, 0), (5, 0)]
    2 0 "boom" rfl rfl (by decide) rfl rfl rfl (by decide)

/-- When none of the matching tasks throws, `executeTaks` runs exactly the
matching tasks, in registration order, and nothing escapes. -/
theorem executeTaks_no_throw (tb : Nat → Option String) (data : Msg)
    (pos : String) :
    ∀ (ts : List Task) (acc fs : List Nat),
      matchingFns data pos ts = some fs → (∀ f ∈ fs, tb f = none) →
      executeTaks tb data pos ts acc = .ok (acc ++ fs, none) := by
  intro ts
  induction ts with
  | nil =>
    intro acc fs hm _
    rw [matchingFns, Option.some.injEq] at hm
    rw [executeTaks, ← hm, List.append_nil]
  | cons t ts ih =>
    intro acc fs hm hn
    rw [matchingFns] at hm
    rw [executeTaks]
    cases hst : shouldTaskExecute data t pos with
    | none => rw [hst] at hm; exact absurd hm (by simp)
    | some b =>
      rw [hst] at hm
      cases b with
      | false => exact ih acc fs hm hn
      | true =>
        obtain ⟨fs', hfs', rfl⟩ := Option.map_eq_some'.mp hm
        rw [hn t.fn (List.mem_cons_self _ _),
          ih (acc ++ [t.fn]) fs' hfs' fun f hf => hn f (List.mem_cons_of_mem _ hf),
          List.append_assoc]
        rfl

/-- When the first throwing task among the matching ones is `f`, the tasks
before `f` run in order, `f` runs and its throw escapes `executeTaks`, and
the remaining tasks are skipped. -/
theorem executeTaks_first_throw (tb : Nat → Option String) (data : Msg)
    (pos : String) (e : String) :
    ∀ (ts : List Task) (acc f1 : List Nat) (f : Nat) (f2 : List Nat),
      matchingFns data pos ts = some (f1 ++ f :: f2) →
      (∀ g ∈ f1, tb g = none) → tb f = some e →
      executeTaks tb data pos ts acc = .ok (acc ++ f1 ++ [f], some e) := by
  intro ts
  induction ts with
  | nil =>
    intro acc f1 f f2 hm _ _
    rw [matchingFns, Option.some.injEq] at hm
    exact absurd hm.symm (by simp)
  | cons t ts ih =>
    intro acc f1 f f2 hm h1 hf
    rw [matchingFns] at hm
    rw [executeTaks]
    cases hst : shouldTaskExecute data t pos with
    | none => rw [hst] at hm; exact absurd hm (by simp)
    | some b =>
      rw [hst] at hm
      cases b with
      | false => exact ih acc f1 f f2 hm h1 hf
      | true =>
        obtain ⟨rest, hrest, heq⟩ := Option.map_eq_some'.mp hm
        cases f1 with
        | nil =>
          obtain ⟨rfl, rfl⟩ : t.fn = f ∧ rest = f2 := by
            have := heq
            simp only [List.nil_append] at this
            exact ⟨(List.cons.injEq .. ▸ this).1, (List.cons.injEq .. ▸ this).2⟩
          rw [hf, List.append_nil]
        | cons g f1' =>
          obtain ⟨rfl, hrest'⟩ : t.fn = g ∧ rest = f1' ++ f :: f2 := by
            rw [List.cons_append] at heq
            exact ⟨(List.cons.injEq .. ▸ heq).1, (List.cons.injEq .. ▸ heq).2⟩
          rw [h1 t.fn (List.mem_cons_self _ _),
            ih (acc ++ [t.fn]) f1' f f2 (hrest' ▸ hrest)
              (fun g' hg' => h1 g' (List.mem_cons_of_mem _ hg')) hf]
          simp [List.append_assoc]

/-- Models `Router.send` when no matching hook throws: BEFORE hooks, transport
send (or enqueue), AFTER hooks, nothing caught. -/
theorem routerSend_no_throw (tb : Nat → Option String) (ok : Msg → Bool)
    (r : RouterState) (message : Msg) (bs as_ : List Nat)
    (hB : matchingFns message BEFORE r.registeredTasks = some bs)
    (hA : matchingFns message AFTER r.registeredTasks = some as_)
    (hbn : ∀ f ∈ bs, tb f = none) (han : ∀ f ∈ as_, tb f = none) :
    routerSend tb ok r message =
      .ok ({ r with conn := { r.conn with
               messageQueue := (chSend ok r.conn.messageQueue message).2 } },
           { beforeRun := bs, transportAttempted := true,
             delivered := ok message, afterRun := as_, caught := none }) := by
  have hB' := executeTaks_no_throw tb message BEFORE r.registeredTasks [] bs hB hbn
  have hA' := executeTaks_no_throw tb message AFTER r.registeredTasks [] as_ hA han
  rw [List.nil_append] at hB' hA'
  simp only [routerSend, hB', hA']

/-- Models `Router.send` when a BEFORE hook throws: the earlier BEFORE hooks and
the thrower run, the transport send and the AFTER hooks do not, the router's
queue is untouched, and the failure is caught. -/
theorem routerSend_before_throw (tb : Nat → Option String) (ok : Msg → Bool)
    (r : RouterState) (message : Msg) (b1 : List Nat) (f : Nat) (b2 : List Nat)
    (e : String)
    (hB : matchingFns message BEFORE r.registeredTasks = some (b1 ++ f :: b2))
    (h1 : ∀ g ∈ b1, tb g = none) (hf : tb f = some e) :
    routerSend tb ok r message =
      .ok (r, { beforeRun := b1 ++ [f], transportAttempted := false,
                delivered := false, afterRun := [], caught := some e }) := by
  have hB' := executeTaks_first_throw tb message BEFORE e r.registeredTasks
    [] b1 f b2 hB h1 hf
  rw [List.nil_append] at hB'
  simp only [routerSend, hB']

/-- Models `Router.send` when an AFTER hook throws: the BEFORE hooks ran, the
transport send already happened and stands, the AFTER hooks up to the
thrower ran, and the failure is caught. -/
theorem routerSend_after_throw (tb : Nat → Option String) (ok : Msg → Bool)
    (r : RouterState) (message : Msg) (bs : List Nat) (a1 : List Nat) (f : Nat)
    (a2 : List Nat) (e : String)
    (hB : matchingFns message BEFORE r.registeredTasks = some bs)
    (hbn : ∀ g ∈ bs, tb g = none)
    (hA : matchingFns message AFTER r.registeredTasks = some (a1 ++ f :: a2))
    (h1 : ∀ g ∈ a1, tb g = none) (hf : tb f = some e) :
    routerSend tb ok r message =
      .ok ({ r with conn := { r.conn with
               messageQueue := (chSend ok r.conn.messageQueue message).2 } },
           { beforeRun := bs, transportAttempted := true,
             delivered := ok message, afterRun := a1 ++ [f],
             caught := some e }) := by
  have hB' := executeTaks_no_throw tb message BEFORE r.registeredTasks [] bs hB hbn
  have hA' := executeTaks_first_throw tb message AFTER e r.registeredTasks
    [] a1 f a2 hA h1 hf
  rw [List.nil_append] at hB' hA'
  simp only [routerSend, hB', hA']

/-- C7 — Outbound hook wrapping: for every message given to `Router.send`,
the BEFORE tasks matching the message's route run in registration order,
then the ConnectionHandler send is performed, then the matching AFTER tasks
run; every outcome is an `.ok` result (the single try/catch never re-raises
to the caller); a BEFORE-task failure aborts the attempt (no transport send,
no AFTER tasks, queue untouched); an AFTER-task failure leaves the
already-performed send standing. -/
theorem C7_send_hook_wrapping (tb : Nat → Option String) (ok : Msg → Bool)
    (r : RouterState) (message : Msg) (bs as_ : List Nat)
    (hB : matchingFns message BEFORE r.registeredTasks = some bs)
    (hA : matchingFns message AFTER r.registeredTasks = some as_) :
    ((∀ f ∈ bs, tb f = none) → (∀ f ∈ as_, tb f = none) →
      routerSend tb ok r message =
        .ok ({ r with conn := { r.conn with
                 messageQueue := (chSend ok r.conn.messageQueue message).2 } },
             { beforeRun := bs, transportAttempted := true,
               delivered := ok message, afterRun := as_, caught := none }))
    ∧ (∀ (b1 : List Nat) (f : Nat) (b2 : List Nat) (e : String),
        bs = b1 ++ f :: b2 → (∀ g ∈ b1, tb g = none) → tb f = some e →
        routerSend tb ok r message =
          .ok (r, { beforeRun := b1 ++ [f], transportAttempted := false,
                    delivered := false, afterRun := [], caught := some e }))
    ∧ (∀ (a1 : List Nat) (f : Nat) (a2 : List Nat) (e : String),
        (∀ g ∈ bs, tb g = none) → as_ = a1 ++ f :: a2 →
        (∀ g ∈ a1, tb g = none) → tb f = some e →
        routerSend tb ok r message =
          .ok ({ r with conn := { r.conn with
                   messageQueue := (chSend ok r.conn.messageQueue message).2 } },
               { beforeRun := bs, transportAttempted := true,
                 delivered := ok message, afterRun := a1 ++ [f],
                 caught := some e })) :=
  ⟨fun hbn han => routerSend_no_throw tb ok r message bs as_ hB hA hbn han,
   fun b1 f b2 e hsplit h1 hf =>
     routerSend_before_throw tb ok r message b1 f b2 e (hsplit ▸ hB) h1 hf,
   fun a1 f a2 e hbn hsplit h1 hf =>
     routerSend_after_throw tb ok r message bs a1 f a2 e hB hbn
       (hsplit ▸ hA) h1 hf⟩

/-- The router of the hook scenarios: a BEFORE hook (10) and an AFTER hook
(11) on `/x`, plus a BEFORE hook (12) on `/y` that never matches. -/
def taskRouter : RouterState :=
  { registeredTasks :=
      [{ route := routify "/x", fn := 10, position := BEFORE },
       { route := routify "/x", fn := 11, position := AFTER },
       { route := routify "/y", fn := 12, position := BEFORE }] }

/-- The outbound message of the hook scenarios. -/
def msgX : Msg := { route := "/x" }

/-- Closed instance of C7: with no hook throwing, `send` runs hook 10, the
transport send, then hook 11; with hook 10 throwing, the transport send and
hook 11 are skipped and the failure is caught; with hook 11 throwing, the
send stands and the failure is caught. -/
theorem C7_send_hook_wrapping_witness :
    routerSend (fun _ => none) (fun _ => true) taskRouter msgX =
      .ok ({ taskRouter with conn := { taskRouter.conn with
               messageQueue := (chSend (fun _ => true)
                 taskRouter.conn.messageQueue msgX).2 } },
           { beforeRun := [10], transportAttempted := true, delivered := true,
             afterRun := [11], caught := none })
    ∧ routerSend (fun n => if n = 10 then some "bhook" else none)
        (fun _ => true) taskRouter msgX =
      .ok (taskRouter,
           { beforeRun := [10], transportAttempted := false, delivered := false,
             afterRun := [], caught := some "bhook" })
    ∧ routerSend (fun n => if n = 11 then some "ahook" else none)
        (fun _ => true) taskRouter msgX =
      .ok ({ taskRouter with conn := { taskRouter.conn with
               messageQueue := (chSend (fun _ => true)
                 taskRouter.conn.messageQueue msgX).2 } },
           { beforeRun := [10], transportAttempted := true, delivered := true,
             afterRun := [11], caught := some "ahook" }) :=
  ⟨(C7_send_hook_wrapping (fun _ => none) (fun _ => true) taskRouter msgX
      [10] [11] rfl rfl).1 (by decide) (by decide),
   (C7_send_hook_wrapping (fun n => if n = 10 then some "bhook" else none)
      (fun _ => true) taskRouter msgX [10] [11] rfl rfl).2.1
      [] 10 [] "bhook" rfl (by decide) rfl,
   (C7_send_hook_wrapping (fun n => if n = 11 then some "ahook" else none)
      (fun _ => true) taskRouter msgX [10] [11] rfl rfl).2.2
      [] 11 [] "ahook" (by decide) rfl (by decide) rfl⟩

/-- C10 — AFTER hooks run regardless of transport delivery: when the
transport send of the message fails, `ConnectionHandler.send` absorbs the
failure by enqueuing the message, so `Router.send` still runs all matching
AFTER tasks even though the message was not delivered. -/
theorem C10_after_hooks_despite_send_failure (tb : Nat → Option String)
    (ok : Msg → Bool) (r : RouterState) (message : Msg) (bs as_ : List Nat)
    (hB : matchingFns message BEFORE r.registeredTasks = some bs)
    (hA : matchingFns message AFTER r.registeredTasks = some as_)
    (hbn : ∀ f ∈ bs, tb f = none) (han : ∀ f ∈ as_, tb f = none)
    (hfail : ok message = false) :
    routerSend tb ok r message =
      .ok ({ r with conn := { r.conn with
               messageQueue := r.conn.messageQueue ++ [message] } },
           { beforeRun := bs, transportAttempted := true, delivered := false,
             afterRun := as_, caught := none }) := by
  have h := routerSend_no_throw tb ok r message bs as_ hB hA hbn han
  rw [chSend, if_neg (by simp [hfail]), hfail] at h
  exact h

/-- Closed instance of C10: the transport rejects the message, which is
enqueued, and the AFTER hook (11) still runs. -/
theorem C10_after_hooks_witness :
    routerSend (fun _ => none) (fun _ => false) taskRouter msgX =
      .ok ({ taskRouter with conn := { taskRouter.conn with
               messageQueue := taskRouter.conn.messageQueue ++ [msgX] } },
           { beforeRun := [10], transportAttempted := true, delivered := false,
             afterRun := [11], caught := none }) :=
  C10_after_hooks_despite_send_failure (fun _ => none) (fun _ => false)
    taskRouter msgX [10] [11] rfl rfl (by decide) (by decide) rfl

/-- What one filter entry actually tests in the source: the pattern is
compiled from the **message's data value** and the **filter's value** is the
candidate string (the reverse of the specified direction). -/
def filterMatchSwapped (d : List (String × String)) (kv : String × String) :
    Bool :=
  match d.lookup kv.1 with
  | some dv =>
    match routify dv with
    | some p => rmatch p kv.2.data
    | none => false
  | none => false

/-- Characterisation of the `applyFilters` loop: if every filter key is
present in the data (and the data values are within the pattern model), the
result is the conjunction of the swapped-direction matches; if any filter
key is missing from the data, the loop throws a TypeError. -/
theorem applyFiltersAux_char (d : List (String × String)) :
    ∀ (fs : List (String × String)) (acc : Bool),
      (∀ kv ∈ fs, ∀ dv, d.lookup kv.1 = some dv → (routify dv).isSome) →
      applyFiltersAux d fs acc =
        if fs.all (fun kv => (d.lookup kv.1).isSome) then
          .ok (acc && fs.all (filterMatchSwapped d))
        else .error .typeError := by
  intro fs
  induction fs with
  | nil => intro acc _; simp [applyFiltersAux]
  | cons kv rest ih =>
    intro acc h
    obtain ⟨k, fv⟩ := kv
    rw [applyFiltersAux]
    cases hlk : d.lookup k with
    | none => simp [hlk]
    | some dv =>
      obtain ⟨p, hp⟩ := Option.isSome_iff_exists.mp
        (h (k, fv) (List.mem_cons_self _ _) dv hlk)
      simp only [hp]
      rw [ih (acc && rmatch p fv.data)
        fun kv' hkv' dv' => h kv' (List.mem_cons_of_mem _ hkv') dv']
      by_cases hall : rest.all (fun kv => (d.lookup kv.1).isSome) = true
      · simp [hall, hlk, filterMatchSwapped, hp, Bool.and_assoc]
      · simp [hlk, hall]

/-- C1 (counterexample) — the spec's filter direction and error behaviour
both fail on the code: the filter `{status: "ok*"}` against the data
`{status: "ok-confirmed"}` is satisfied under the spec's reading (the data
value matches the filter pattern) but `applyFilters` reports `false`, because
it compiles the data value as the pattern and matches the filter value
against it; and with the data `{color: "red"}` the missing `status` key makes
`applyFilters` throw a TypeError where the spec prescribes a plain
non-match. -/
theorem C1_counterexample :
    applyFilters [("status", "ok-confirmed")] [("status", "ok*")] = .ok false
    ∧ specFilterSat [("status", "ok-confirmed")] [("status", "ok*")] = true
    ∧ applyFilters [("color", "red")] [("status", "ok*")] =
        .error DErr.typeError
    ∧ specFilterSat [("color", "red")] [("status", "ok*")] = false :=
  ⟨rfl, by decide, rfl, by decide⟩

/-- C1 (amended) — filter evaluation during dispatch, as the code performs
it: each filter entry `{key: pattern}` is satisfied exactly when the filter's
value (stringified) matches the pattern compiled from the message's
`data[key]` (stringified) — the reverse of the specified direction; the
action, filter and route conditions are conjunctive; a missing `data` object
makes the event a non-match, but a `data` key missing for a declared filter
key raises a TypeError instead of producing a non-match. -/
theorem C1_filters_reversed_and_missing_key_throws
    (d fs : List (String × String)) (msg : Msg) (evt : REvent)
    (a : String) (pa pn : List RTok)
    (hsafe : ∀ kv ∈ fs, ∀ dv, d.lookup kv.1 = some dv → (routify dv).isSome)
    (hact : evt.action = some a) (hpa : routify a = some pa)
    (hn : evt.n = some pn) (hfs : evt.filters = some fs) :
    (applyFilters d fs =
      if fs.all (fun kv => (d.lookup kv.1).isSome) then
        .ok (fs.all (filterMatchSwapped d))
      else .error .typeError)
    ∧ (msg.data = none → shouldEventExecute msg evt = .ok false)
    ∧ (msg.data = some d → fs.all (fun kv => (d.lookup kv.1).isSome) = true →
        shouldEventExecute msg evt =
          .ok (rmatch pa (actionCandidate msg).data
            && fs.all (filterMatchSwapped d)
            && rmatch pn msg.route.data)) := by
  have hchar := applyFiltersAux_char d fs true hsafe
  rw [Bool.true_and] at hchar
  refine ⟨hchar, ?_, ?_⟩
  · intro hdata
    rw [shouldEventExecute, hact]
    simp only [hpa, hfs, hdata]
    cases hb : rmatch pa (actionCandidate msg).data with
    | false => simp
    | true => simp
  · intro hdata hall
    rw [shouldEventExecute, hact]
    simp only [hpa, hfs, hdata, hn, applyFilters, hchar, hall, if_true]
    cases hb : rmatch pa (actionCandidate msg).data with
    | false => simp
    | true =>
      cases hm : fs.all (filterMatchSwapped d) with
      | false => simp
      | true => simp

/-- Closed instance of the amended C1: an all-literal filter whose value
equals the data value is accepted (both directions coincide on literals),
and the three gates evaluate conjunctively to a match. -/
theorem C1_witness :
    shouldEventExecute
      { route := "/items/5", action := some "UPDATE",
        data := some [("status", "ok")] }
      { n := routify "/items/*", fn := .single 1, action := some "UPDATE",
        filters := some [("status", "ok")] } = .ok true := by
  have h := (C1_filters_reversed_and_missing_key_throws
    [("status", "ok")] [("status", "ok")]
    { route := "/items/5", action := some "UPDATE",
      data := some [("status", "ok")] }
    { n := routify "/items/*", fn := .single 1, action := some "UPDATE",
      filters := some [("status", "ok")] }
    "UPDATE" (specCompile "UPDATE") (specCompile "/items/*")
    (by decide) rfl rfl rfl rfl).2.2 rfl (by decide)
  rw [h]
  rfl

end WSRouter
